import Mathlib

/-!
Verification of the BigchainDB CLI (`bigchaindb/commands/bigchain.py`):
a shallow embedding of the command implementations (load generator,
init/start bootstrap sequence, topology administration, show-config)
and theorems settling the specification's claims about them.
-/

set_option linter.unusedVariables false

namespace BigchainCLI

/-! ## Load generator (`run_load` / `_run_load`)

`run_load` computes the per-worker quota:
  `tx_left = None; if args.count > 0: tx_left = int(args.count / args.multiprocess)`
Python's `int(a / b)` truncates toward zero, which on integers is `Int.tdiv`.
Every one of the `args.multiprocess` workers is spawned with the same
`tx_left` value. -/

def run_load_tx_left (count : Int) (multiprocess : Nat) : Option Int :=
  if count > 0 then some (count.tdiv multiprocess) else none

/-- The list of quotas handed to the `multiprocess` spawned workers: each
worker receives the same `tx_left`. -/
def run_load_quotas (count : Int) (multiprocess : Nat) : List (Option Int) :=
  List.replicate multiprocess (run_load_tx_left count multiprocess)

/-- Sum of the per-worker quotas of a bounded run (an absent quota counts 0). -/
def quotaSum (count : Int) (multiprocess : Nat) : Int :=
  (run_load_quotas count multiprocess).foldl (fun acc q => acc + q.getD 0) 0

/-- State of one `_run_load` worker: its local `tx_left` counter, the number
of `stats['transactions'] += 1` increments it has performed, and whether its
`while True` loop has executed `break`. -/
structure WorkerState where
  txLeft : Option Int
  txSubmitted : Nat
  broke : Bool
deriving DecidableEq, Repr

def initWorker (q : Option Int) : WorkerState :=
  { txLeft := q, txSubmitted := 0, broke := false }

/-- One iteration of the `while True` body of `_run_load`: submit a
transaction and increment the shared counter; then, if `tx_left` is not
`None`, decrement it and `break` when it has become exactly 0. A worker that
has already broken out of the loop does nothing. -/
def loadStep (s : WorkerState) : WorkerState :=
  if s.broke then s
  else
    match s.txLeft with
    | none => { s with txSubmitted := s.txSubmitted + 1 }
    | some t =>
        { txLeft := some (t - 1), txSubmitted := s.txSubmitted + 1,
          broke := (t - 1 == 0) }

/-- `loadIter n s` runs `n` iterations of the worker loop from state `s`. -/
def loadIter : Nat → WorkerState → WorkerState
  | 0, s => s
  | n + 1, s => loadIter n (loadStep s)

/-- The shared stats counter observed when worker `i` has executed
`steps[i]` iterations of its loop (all workers share one quota value). -/
def statsSnapshot (q : Option Int) (steps : List Nat) : Nat :=
  (steps.map (fun n => (loadIter n (initWorker q)).txSubmitted)).sum

/-! ## Bootstrap: `_run_init`, `run_init`, `run_start` -/

/-- Backend-visible state: whether the database exists and how many genesis
records have been created in it. -/
structure SysState where
  dbExists : Bool
  genesisCount : Nat
deriving DecidableEq, Repr

/-- The exceptions `_run_init` can raise (`DatabaseAlreadyExists` from
`schema.init_database`, `KeypairNotFoundException` from `Bigchain()`). -/
inductive InitError
  | databaseAlreadyExists
  | keypairNotFound
deriving DecidableEq, Repr

/-- `_run_init`: builds a `Bigchain()` (which accesses the keypair and throws
if it does not exist), calls `schema.init_database`, then creates the genesis
block. Control flow is from the source; the callees are external.
Modelled from the spec: `Bigchain()` raises `KeypairNotFoundException` when
the node keypair is not available; `schema.init_database` signals
`DatabaseAlreadyExists` when the database already exists and otherwise
creates it; `create_genesis_block` adds exactly one genesis record. -/
def _run_init (keypairAvailable : Bool) (s : SysState) :
    Except InitError (SysState × List String) :=
  if !keypairAvailable then .error .keypairNotFound
  else if s.dbExists then .error .databaseAlreadyExists
  else .ok ({ dbExists := true, genesisCount := s.genesisCount + 1 },
            ["Create genesis block.", "Done, have fun!"])

/-- Outcome of a completed `run_init`: resulting backend state and the lines
printed to stdout and stderr. -/
structure InitResult where
  state : SysState
  stdout : List String
  stderr : List String
deriving DecidableEq, Repr

/-- `run_init`: calls `_run_init` and catches `DatabaseAlreadyExists`,
printing an informational message to stderr; any other exception
propagates. -/
def run_init (keypairAvailable : Bool) (s : SysState) : Except InitError InitResult :=
  match _run_init keypairAvailable s with
  | .ok (s2, out) => .ok ⟨s2, out, []⟩
  | .error .databaseAlreadyExists =>
      .ok ⟨s, [], ["The database already exists.",
                   "If you wish to re-initialize it, first drop it."]⟩
  | .error e => .error e

/-- Python truthiness of an optional string: `None` and `''` are falsy. -/
def pyTruthy (v : Option String) : Bool :=
  match v with
  | none => false
  | some s => !(s == "")

/-- The `--dev-allow-temp-keypair` and `--dev-start-rethinkdb` flags of the
`start` subcommand. -/
structure StartArgs where
  allowTempKeypair : Bool
  startRethinkdb : Bool
deriving DecidableEq, Repr

/-- The node keypair portion of `bigchaindb.config`. -/
structure KeypairConfig where
  privateKey : Option String
  publicKey : Option String
deriving DecidableEq, Repr

/-- The keypair after `run_start`'s temp-keypair step: when
`--dev-allow-temp-keypair` is given and neither key is set, a fresh pair is
generated in memory; otherwise the configured keypair is kept unchanged. -/
def effectiveKeypair (args : StartArgs) (cfg : KeypairConfig) : KeypairConfig :=
  if args.allowTempKeypair && !pyTruthy cfg.privateKey && !pyTruthy cfg.publicKey then
    { privateKey := some "temp-private-key", publicKey := some "temp-public-key" }
  else cfg

/-- Modelled from the spec: `Bigchain()` requires a persisted keypair; a
missing or partial keypair (either key unset/empty) makes it raise
`KeypairNotFoundException`. -/
def keypairOk (cfg : KeypairConfig) : Bool :=
  pyTruthy cfg.privateKey && pyTruthy cfg.publicKey

/-- Outcome of `run_start`: resulting backend state, process exit code (0
unless `sys.exit` was called with a message), the fatal message if any, and
whether control was handed off to `processes.start()`. -/
structure StartResult where
  state : SysState
  exitCode : Nat
  exitMsg : Option String
  handoff : Bool
deriving DecidableEq, Repr

/-- `run_start`: resolves the (possibly temporary) keypair, optionally starts
RethinkDB (`sys.exit` on `StartupError`), runs `_run_init` catching
`DatabaseAlreadyExists` with `pass` and `KeypairNotFoundException` with a
fatal `sys.exit`, then hands off to `processes.start()`. `rethinkdbOk` stands
for the external outcome of `utils.start_rethinkdb()`. -/
def run_start (args : StartArgs) (rethinkdbOk : Bool)
    (cfg : KeypairConfig) (s : SysState) : StartResult :=
  if args.startRethinkdb && !rethinkdbOk then
    { state := s, exitCode := 1,
      exitMsg := some "Error starting RethinkDB", handoff := false }
  else
    match _run_init (keypairOk (effectiveKeypair args cfg)) s with
    | .ok (s2, _) =>
        { state := s2, exitCode := 0, exitMsg := none, handoff := true }
    | .error .databaseAlreadyExists =>
        { state := s, exitCode := 0, exitMsg := none, handoff := true }
    | .error .keypairNotFound =>
        { state := s, exitCode := 1,
          exitMsg := some "Cannot start BigchainDB, no keypair found. Did you run bigchaindb configure?",
          handoff := false }

/-! ## Topology administration

Each command connects (`backend.connect()`) and issues one backend admin
call; we record the backend interactions it performs together with how its
`try/except` handles the backend's outcome. -/

/-- A backend interaction performed by a topology command. -/
inductive BackendCall
  | connect
  | setShardsCall (n : Int)
  | setReplicasCall (n : Int)
  | addReplicasCall (hosts : List String)
  | removeReplicasCall (hosts : List String)
deriving DecidableEq, Repr

/-- Modelled from the spec: outcome of a backend admin call — success,
an `OperationError` (backend-side rejection), or a `NotImplementedError`
(backend lacks the capability). -/
inductive AdminOutcome
  | ok
  | operationError (msg : String)
  | notImplementedError (msg : String)
deriving DecidableEq, Repr

/-- How a command invocation ends: it completes normally (exit 0) with lines
printed to stdout/stderr, or it crashes with an uncaught exception (abnormal,
non-zero termination). -/
inductive RunOutcome
  | completed (stdout : List String) (stderr : List String)
  | crashed (msg : String)
deriving DecidableEq, Repr

/-- `run_set_shards`: connects, calls `set_shards(conn, shards=args.num_shards)`
and catches only `OperationError` (printed to stderr). -/
def run_set_shards (numShards : Int) (backendResult : AdminOutcome) :
    List BackendCall × RunOutcome :=
  ([.connect, .setShardsCall numShards],
   match backendResult with
   | .ok => .completed [] []
   | .operationError m => .completed [] [m]
   | .notImplementedError m => .crashed m)

/-- `run_set_replicas`: connects, calls
`set_replicas(conn, replicas=args.num_replicas)` and catches only
`OperationError` (printed to stderr). -/
def run_set_replicas (numReplicas : Int) (backendResult : AdminOutcome) :
    List BackendCall × RunOutcome :=
  ([.connect, .setReplicasCall numReplicas],
   match backendResult with
   | .ok => .completed [] []
   | .operationError m => .completed [] [m]
   | .notImplementedError m => .crashed m)

/-- `run_add_replicas`: connects, calls `add_replicas(conn, args.replicas)`
and catches `OperationError` and `NotImplementedError` (printed to stderr);
on success it prints a confirmation (the source interpolates the host list
into the message). -/
def run_add_replicas (replicas : List String) (backendResult : AdminOutcome) :
    List BackendCall × RunOutcome :=
  ([.connect, .addReplicasCall replicas],
   match backendResult with
   | .ok => .completed ["Added hosts to the replicaset."] []
   | .operationError m => .completed [] [m]
   | .notImplementedError m => .completed [] [m])

/-- `run_remove_replicas`: connects, calls `remove_replicas(conn, args.replicas)`
and catches `OperationError` and `NotImplementedError` (printed to stderr);
on success it prints a confirmation. -/
def run_remove_replicas (replicas : List String) (backendResult : AdminOutcome) :
    List BackendCall × RunOutcome :=
  ([.connect, .removeReplicasCall replicas],
   match backendResult with
   | .ok => .completed ["Removed hosts from the replicaset."] []
   | .operationError m => .completed [] [m]
   | .notImplementedError m => .completed [] [m])

/-! ## `run_show_config` -/

/-- The in-memory `bigchaindb.config` dictionary, as far as `run_show_config`
manipulates it: the `CONFIGURED` flag (deleted before printing), the keypair,
and all remaining entries (printed verbatim). -/
structure BigchainConfig where
  configuredFlag : Bool
  keypairPublic : Option String
  keypairPrivate : Option String
  otherEntries : List (String × String)
deriving DecidableEq, Repr

/-- The configuration value printed (as JSON) by `run_show_config`; the
`CONFIGURED` key has been removed. -/
structure ShownConfig where
  keypairPublic : Option String
  keypairPrivate : Option String
  otherEntries : List (String × String)
deriving DecidableEq, Repr

/-- The redaction constant `'x' * 45`. -/
def redactedPrivate : String := String.mk (List.replicate 45 'x')

/-- `run_show_config`: deep-copies the config, deletes `CONFIGURED`, replaces
the private key by `'x' * 45` when it is truthy and by `None` otherwise, and
prints the result as JSON (determined by the returned `ShownConfig`). -/
def run_show_config (c : BigchainConfig) : ShownConfig :=
  { keypairPublic := c.keypairPublic,
    keypairPrivate := if pyTruthy c.keypairPrivate then some redactedPrivate else none,
    otherEntries := c.otherEntries }

/-! ## Helper lemmas -/

lemma tdiv_natCast (m n : Nat) : (m : Int).tdiv (n : Int) = ((m / n : Nat) : Int) := rfl

lemma foldl_replicate_add (n : Nat) (q : Option Int) (acc : Int) :
    (List.replicate n q).foldl (fun a x => a + x.getD 0) acc = acc + n * q.getD 0 := by
  induction n generalizing acc with
  | zero => simp
  | succ k ih =>
      rw [List.replicate_succ, List.foldl_cons, ih]
      push_cast
      ring

lemma loadIter_none (n m : Nat) :
    loadIter n ⟨none, m, false⟩ = ⟨none, m + n, false⟩ := by
  induction n generalizing m with
  | zero => rfl
  | succ k ih =>
      show loadIter k (loadStep ⟨none, m, false⟩) = _
      rw [show loadStep ⟨none, m, false⟩ = ⟨none, m + 1, false⟩ from rfl, ih]
      congr 1
      omega

lemma loadIter_nonpos (n k m : Nat) :
    loadIter n ⟨some (-(k : Int)), m, false⟩
      = ⟨some (-((k + n : Nat) : Int)), m + n, false⟩ := by
  induction n generalizing k m with
  | zero => simp [loadIter]
  | succ j ih =>
      show loadIter j (loadStep ⟨some (-(k : Int)), m, false⟩) = _
      have hstep : loadStep ⟨some (-(k : Int)), m, false⟩
          = ⟨some (-((k + 1 : Nat) : Int)), m + 1, false⟩ := by
        simp [loadStep, WorkerState.mk.injEq, beq_iff_eq]
        omega
      rw [hstep, ih]
      simp [WorkerState.mk.injEq]
      omega

lemma loadIter_completes (k m : Nat) :
    loadIter (k + 1) ⟨some ((k + 1 : Nat) : Int), m, false⟩
      = ⟨some 0, m + (k + 1), true⟩ := by
  induction k generalizing m with
  | zero =>
      show loadIter 0 (loadStep _) = _
      simp [loadStep, loadIter]
  | succ j ih =>
      show loadIter (j + 1) (loadStep ⟨some ((j + 2 : Nat) : Int), m, false⟩) = _
      have hstep : loadStep ⟨some ((j + 2 : Nat) : Int), m, false⟩
          = ⟨some ((j + 1 : Nat) : Int), m + 1, false⟩ := by
        simp [loadStep, WorkerState.mk.injEq, beq_iff_eq]
        omega
      rw [hstep, ih]
      simp [WorkerState.mk.injEq]
      omega

lemma loadStep_txSubmitted_le (s : WorkerState) :
    s.txSubmitted ≤ (loadStep s).txSubmitted := by
  unfold loadStep
  split
  · exact le_refl _
  · cases h : s.txLeft <;> simp

lemma txSubmitted_le_loadIter (n : Nat) (s : WorkerState) :
    s.txSubmitted ≤ (loadIter n s).txSubmitted := by
  induction n generalizing s with
  | zero => exact le_refl _
  | succ k ih => exact le_trans (loadStep_txSubmitted_le s) (ih (loadStep s))

lemma loadIter_add (a b : Nat) (s : WorkerState) :
    loadIter (b + a) s = loadIter a (loadIter b s) := by
  induction b generalizing s with
  | zero => simp [loadIter]
  | succ j ih =>
      show loadIter (j + 1 + a) s = _
      rw [show j + 1 + a = (j + a) + 1 from by omega]
      show loadIter (j + a) (loadStep s) = _
      rw [ih (loadStep s)]
      rfl

lemma loadIter_txSubmitted_mono (s : WorkerState) {n m : Nat} (h : n ≤ m) :
    (loadIter n s).txSubmitted ≤ (loadIter m s).txSubmitted := by
  obtain ⟨d, rfl⟩ := Nat.exists_eq_add_of_le h
  rw [loadIter_add d n s]
  exact txSubmitted_le_loadIter d (loadIter n s)

lemma statsSnapshot_mono (q : Option Int) {l1 l2 : List Nat}
    (h : List.Forall₂ (· ≤ ·) l1 l2) :
    statsSnapshot q l1 ≤ statsSnapshot q l2 := by
  induction h with
  | nil => exact le_refl _
  | @cons a b l1' l2' hab htail ih =>
      simp only [statsSnapshot, List.map_cons, List.sum_cons]
      exact Nat.add_le_add (loadIter_txSubmitted_mono _ hab) ih

lemma statsSnapshot_replicate (q : Option Int) (W n : Nat) :
    statsSnapshot q (List.replicate W n)
      = W * (loadIter n (initWorker q)).txSubmitted := by
  simp [statsSnapshot, List.map_replicate, List.sum_replicate, smul_eq_mul]

/-! ## Claim theorems -/

/-- C1 (counterexample): for `count = 10`, `multiprocess = 4` every worker's
quota is 2, so the quotas sum to 8, not to the total count 10 — the claim
that the quota sum always equals the total count fails. -/
theorem run_load_quota_sum_counterexample :
    run_load_quotas 10 4 = List.replicate 4 (some 2) ∧
    quotaSum 10 4 = 8 ∧
    quotaSum 10 4 ≠ 10 := by decide

/-- C1 (amended): for every bounded run with `0 < C` and `0 < W`, every
worker's quota is `⌊C / W⌋` (never negative), and the quota sum is
`W * ⌊C / W⌋`, which is at most `C` and equals `C` exactly when `W`
divides `C` (the remainder is dropped, not redistributed). -/
theorem run_load_quota_distribution (C : Int) (W : Nat) (hC : 0 < C) (hW : 0 < W) :
    run_load_quotas C W = List.replicate W (some (C.tdiv W)) ∧
    0 ≤ C.tdiv W ∧
    quotaSum C W = W * C.tdiv W ∧
    quotaSum C W ≤ C ∧
    ((W : Int) ∣ C → quotaSum C W = C) := by
  obtain ⟨c, rfl⟩ := Int.eq_ofNat_of_zero_le (le_of_lt hC)
  have htx : run_load_tx_left c W = some ((c / W : Nat) : Int) := by
    rw [run_load_tx_left, if_pos hC, tdiv_natCast]
  have hsum : quotaSum c W = W * ((c / W : Nat) : Int) := by
    rw [quotaSum, run_load_quotas, htx, foldl_replicate_add]
    simp
  refine ⟨?_, ?_, ?_, ?_, ?_⟩
  · rw [run_load_quotas, htx, tdiv_natCast]
  · rw [tdiv_natCast]
    positivity
  · rw [hsum, tdiv_natCast]
  · rw [hsum]
    have hle := Nat.div_mul_le_self c W
    calc (W : Int) * ((c / W : Nat) : Int) = ((c / W * W : Nat) : Int) := by push_cast; ring
    _ ≤ (c : Int) := by exact_mod_cast hle
  · intro hdvd
    rw [hsum]
    have hdvd2 : W ∣ c := by exact_mod_cast hdvd
    have hcancel := Nat.mul_div_cancel' hdvd2
    exact_mod_cast hcancel

/-- C1 (witness): the amended distribution facts instantiated at
`count = 10`, `multiprocess = 4`. -/
theorem run_load_quota_distribution_witness :
    quotaSum 10 4 = 4 * Int.tdiv 10 4 ∧ quotaSum 10 4 ≤ 10 ∧ 0 ≤ Int.tdiv 10 4 := by
  have h := run_load_quota_distribution 10 4 (by decide) (by decide)
  exact ⟨h.2.2.1, h.2.2.2.1, h.2.1⟩

/-- C2 (counterexample): for `count = 10`, `multiprocess = 4` each worker is
given quota 2 and completes after exactly 2 submissions, so the aggregated
stats counter at completion is 8, not the bounded count 10. -/
theorem run_load_stats_total_counterexample :
    run_load_tx_left 10 4 = some 2 ∧
    (loadIter 2 (initWorker (some 2))).broke = true ∧
    statsSnapshot (some 2) (List.replicate 4 2) = 8 ∧
    statsSnapshot (some 2) (List.replicate 4 2) ≠ 10 := by decide

/-- C2 (amended): the shared stats counter is non-decreasing over time (any
snapshot taken when every worker has run at least as many iterations is at
least as large), and when the computed per-worker quota `q = ⌊C / W⌋` is
positive, every worker terminates after exactly `q` iterations, so the
counter at completion equals `W * ⌊C / W⌋` — which equals `C` only when `W`
divides `C`. -/
theorem run_load_stats_monotone_and_completion_total (C : Int) (W q : Nat)
    (hq : run_load_tx_left C W = some (q : Int)) (hq1 : 1 ≤ q) :
    (∀ steps1 steps2, List.Forall₂ (· ≤ ·) steps1 steps2 →
        statsSnapshot (some (q : Int)) steps1 ≤ statsSnapshot (some (q : Int)) steps2) ∧
    loadIter q (initWorker (some (q : Int))) = ⟨some 0, q, true⟩ ∧
    statsSnapshot (some (q : Int)) (List.replicate W q) = W * q := by
  obtain ⟨k, rfl⟩ := Nat.exists_eq_add_of_le hq1
  have hcomp : loadIter (1 + k) (initWorker (some ((1 + k : Nat) : Int)))
      = ⟨some 0, 1 + k, true⟩ := by
    rw [show (1 + k) = k + 1 from by omega,
        show initWorker (some ((k + 1 : Nat) : Int))
          = ⟨some ((k + 1 : Nat) : Int), 0, false⟩ from rfl,
        loadIter_completes]
    simp
  refine ⟨fun s1 s2 h => statsSnapshot_mono _ h, hcomp, ?_⟩
  rw [statsSnapshot_replicate, hcomp]

/-- C2 (witness): the amended statement instantiated at `count = 10`,
`multiprocess = 4`, quota 2: completion total is `4 * 2 = 8`. -/
theorem run_load_stats_monotone_and_completion_total_witness :
    run_load_tx_left 10 4 = some 2 ∧
    statsSnapshot (some 2) (List.replicate 4 2) = 4 * 2 := by
  have h := run_load_stats_monotone_and_completion_total 10 4 2 (by decide) (by decide)
  exact ⟨by decide, h.2.2⟩

/-- C3: on a fresh backend, `run_init` creates exactly one genesis record and
succeeds; running it again succeeds without creating another genesis record
and reports on stderr that the database already exists. -/
theorem run_init_idempotent (s : SysState)
    (hdb : s.dbExists = false) (hg : s.genesisCount = 0) :
    ∃ r1 r2 : InitResult,
      run_init true s = .ok r1 ∧
      r1.state.genesisCount = 1 ∧ r1.state.dbExists = true ∧
      run_init true r1.state = .ok r2 ∧
      r2.state.genesisCount = 1 ∧
      r2.stderr = ["The database already exists.",
                   "If you wish to re-initialize it, first drop it."] := by
  cases s with
  | mk db g =>
      simp only at hdb hg
      subst hdb
      subst hg
      exact ⟨_, _, rfl, rfl, rfl, rfl, rfl, rfl⟩

/-- C3 (witness): the idempotence statement at the concrete fresh state. -/
theorem run_init_idempotent_witness :
    ∃ r1 r2 : InitResult,
      run_init true ⟨false, 0⟩ = .ok r1 ∧
      r1.state.genesisCount = 1 ∧ r1.state.dbExists = true ∧
      run_init true r1.state = .ok r2 ∧
      r2.state.genesisCount = 1 ∧
      r2.stderr = ["The database already exists.",
                   "If you wish to re-initialize it, first drop it."] :=
  run_init_idempotent ⟨false, 0⟩ rfl rfl

/-- C4 (counterexample): `run_set_replicas` invoked with `-1` still connects
to the backend and calls the backend mutator with `-1`: no validation of
non-positive values happens before the backend interaction, contrary to the
claim. -/
theorem run_set_replicas_no_validation_counterexample :
    (run_set_replicas (-1) (.operationError "rejected")).1
      = [.connect, .setReplicasCall (-1)] ∧
    BackendCall.setReplicasCall (-1) ∈ (run_set_replicas (-1) (.operationError "rejected")).1 := by
  constructor
  · rfl
  · simp [run_set_replicas]

/-- C4 (amended): for every non-positive `n`, `set-replicas` and `set-shards`
perform the backend connection and the mutation call with `n` unvalidated;
rejection is left to the backend, whose `OperationError` is reported on
stderr with the command still completing normally. -/
theorem run_set_replicas_forwards_invalid (n : Int) (r : AdminOutcome) (hn : n ≤ 0) :
    (run_set_replicas n r).1 = [.connect, .setReplicasCall n] ∧
    (run_set_shards n r).1 = [.connect, .setShardsCall n] ∧
    ∀ m, (run_set_replicas n (.operationError m)).2 = .completed [] [m] :=
  ⟨rfl, rfl, fun m => rfl⟩

/-- C4 (witness): the amended statement instantiated at `n = -1`. -/
theorem run_set_replicas_forwards_invalid_witness :
    (run_set_replicas (-1) .ok).1 = [.connect, .setReplicasCall (-1)] :=
  (run_set_replicas_forwards_invalid (-1) .ok (by decide)).1

/-- C5: during `run_start`, if the database already exists its genesis count
is unchanged (no genesis creation is attempted on the idempotent path), and
whenever the genesis count changes the database was fresh and exactly one
genesis record was added. -/
theorem run_start_genesis_only_when_fresh (args : StartArgs) (rok : Bool)
    (cfg : KeypairConfig) (s : SysState) :
    (s.dbExists = true → (run_start args rok cfg s).state.genesisCount = s.genesisCount) ∧
    ((run_start args rok cfg s).state.genesisCount ≠ s.genesisCount →
      s.dbExists = false ∧
      (run_start args rok cfg s).state.genesisCount = s.genesisCount + 1) := by
  unfold run_start _run_init
  by_cases hr : (args.startRethinkdb && !rok) = true
  · simp [hr]
  · simp only [hr, if_false, Bool.not_eq_true]
    by_cases hk : keypairOk (effectiveKeypair args cfg) = true
    · simp only [hk, Bool.not_true]
      by_cases hdb : s.dbExists = true
      · simp [hdb]
      · simp only [Bool.not_eq_true] at hdb
        simp [hdb]
    · simp only [Bool.not_eq_true] at hk
      simp [hk]

/-- C5 (witness): with an existing database, `run_start` leaves the genesis
count unchanged. -/
theorem run_start_genesis_only_when_fresh_witness :
    (run_start ⟨false, false⟩ true ⟨some "k", some "p"⟩ ⟨true, 1⟩).state.genesisCount = 1 :=
  (run_start_genesis_only_when_fresh ⟨false, false⟩ true ⟨some "k", some "p"⟩ ⟨true, 1⟩).1 rfl

/-- C6: whenever the keypair effective after the temp-keypair step is not a
full keypair, `run_start` terminates fatally: non-zero exit code, an
explanatory message, no handoff to `processes.start()`, and the backend state
untouched. -/
theorem run_start_missing_keypair_fatal (args : StartArgs) (rok : Bool)
    (cfg : KeypairConfig) (s : SysState)
    (hk : keypairOk (effectiveKeypair args cfg) = false) :
    (run_start args rok cfg s).exitCode ≠ 0 ∧
    (run_start args rok cfg s).exitMsg.isSome = true ∧
    (run_start args rok cfg s).handoff = false ∧
    (run_start args rok cfg s).state = s := by
  unfold run_start
  by_cases hr : (args.startRethinkdb && !rok) = true
  · simp [hr]
  · simp only [hr, if_false]
    rw [hk]
    simp [_run_init]

/-- C6 (witness): a partial keypair (public key only, no temp-keypair
generation possible) makes `run_start` exit non-zero without handoff. -/
theorem run_start_missing_keypair_fatal_witness :
    (run_start ⟨false, false⟩ true ⟨none, some "pub"⟩ ⟨false, 0⟩).exitCode ≠ 0 ∧
    (run_start ⟨false, false⟩ true ⟨none, some "pub"⟩ ⟨false, 0⟩).handoff = false := by
  have h := run_start_missing_keypair_fatal ⟨false, false⟩ true ⟨none, some "pub"⟩ ⟨false, 0⟩
    (by decide)
  exact ⟨h.1, h.2.2.1⟩

/-- C7 (counterexample): `run_set_shards` catches only `OperationError`, so a
`NotImplementedError` from the backend propagates and the command crashes
(abnormal, non-zero termination) instead of being reported non-fatally —
refuting the claim for the `set-shards` operation. -/
theorem run_set_shards_not_implemented_crashes :
    (run_set_shards 2 (.notImplementedError "set_shards not supported")).2
      = .crashed "set_shards not supported" := rfl

/-- C7 (amended): `OperationError` is reported on stderr with normal (zero)
termination by all four topology commands, and `NotImplementedError` is
handled the same way by `add-replicas` and `remove-replicas` only —
`set-shards` and `set-replicas` let it propagate as an uncaught crash
(abnormal, non-zero termination); no command retries. -/
theorem topology_errors_reported_nonfatally (nS nR : Int) (hosts : List String)
    (m : String) :
    (run_set_shards nS (.operationError m)).2 = .completed [] [m] ∧
    (run_set_replicas nR (.operationError m)).2 = .completed [] [m] ∧
    (run_add_replicas hosts (.operationError m)).2 = .completed [] [m] ∧
    (run_add_replicas hosts (.notImplementedError m)).2 = .completed [] [m] ∧
    (run_remove_replicas hosts (.operationError m)).2 = .completed [] [m] ∧
    (run_remove_replicas hosts (.notImplementedError m)).2 = .completed [] [m] ∧
    (run_set_shards nS (.notImplementedError m)).2 = .crashed m ∧
    (run_set_replicas nR (.notImplementedError m)).2 = .crashed m :=
  ⟨rfl, rfl, rfl, rfl, rfl, rfl, rfl, rfl⟩

/-- C8: when the count is omitted or not positive, the computed quota is
`None` and a worker's loop never executes `break`, for any number of
iterations: it runs unbounded until externally terminated. -/
theorem run_load_unbounded_without_count (C : Int) (W : Nat) (hC : ¬ 0 < C) :
    run_load_tx_left C W = none ∧
    ∀ n, (loadIter n (initWorker none)).txLeft = none ∧
         (loadIter n (initWorker none)).broke = false := by
  refine ⟨by rw [run_load_tx_left, if_neg hC], fun n => ?_⟩
  rw [show initWorker none = ⟨none, 0, false⟩ from rfl, loadIter_none]
  exact ⟨rfl, rfl⟩

/-- C8 (witness): with the default `count = 0`, the quota is `None` and after
5 iterations the worker still has not broken out of its loop. -/
theorem run_load_unbounded_without_count_witness :
    run_load_tx_left 0 4 = none ∧
    (loadIter 5 (initWorker none)).broke = false := by
  have h := run_load_unbounded_without_count 0 4 (by decide)
  exact ⟨h.1, (h.2 5).2⟩

/-- C9: two configurations that differ only in a set, non-empty private key
produce the same `show-config` output, and the printed private key is the
constant redaction `'x' * 45` — the output does not depend on the private
key's value. -/
theorem run_show_config_private_independent (c1 c2 : BigchainConfig)
    (hflag : c1.configuredFlag = c2.configuredFlag)
    (hpub : c1.keypairPublic = c2.keypairPublic)
    (hother : c1.otherEntries = c2.otherEntries)
    (h1 : pyTruthy c1.keypairPrivate = true)
    (h2 : pyTruthy c2.keypairPrivate = true) :
    run_show_config c1 = run_show_config c2 ∧
    (run_show_config c1).keypairPrivate = some redactedPrivate := by
  simp [run_show_config, h1, h2, hpub, hother, ShownConfig.mk.injEq]

/-- C9 (witness): two concrete configurations differing only in the private
key print identically. -/
theorem run_show_config_private_independent_witness :
    run_show_config ⟨true, some "pub", some "secretA", [("database", "bigchain")]⟩
      = run_show_config ⟨true, some "pub", some "secretB", [("database", "bigchain")]⟩ := by
  have h := run_show_config_private_independent
    ⟨true, some "pub", some "secretA", [("database", "bigchain")]⟩
    ⟨true, some "pub", some "secretB", [("database", "bigchain")]⟩
    rfl rfl rfl (by decide) (by decide)
  exact h.1

/-- C10: for `0 < count < multiprocess` the computed quota is 0; such a
worker decrements its quota to `-1` on the first iteration, and since the
loop only breaks when the quota becomes exactly 0, it never breaks: the
worker runs unbounded. -/
theorem run_load_zero_quota_never_terminates (C : Int) (W : Nat)
    (h0 : 0 < C) (hCW : C < (W : Int)) :
    run_load_tx_left C W = some 0 ∧
    (loadIter 1 (initWorker (some 0))).txLeft = some (-1) ∧
    ∀ n, (loadIter n (initWorker (some 0))).broke = false := by
  obtain ⟨c, rfl⟩ := Int.eq_ofNat_of_zero_le (le_of_lt h0)
  have hcW : c < W := by exact_mod_cast hCW
  refine ⟨?_, by decide, fun n => ?_⟩
  · rw [run_load_tx_left, if_pos h0, tdiv_natCast, Nat.div_eq_of_lt hcW]
    rfl
  · have h := loadIter_nonpos n 0 0
    simp only [Nat.cast_zero, neg_zero, Nat.zero_add, zero_add] at h
    rw [show initWorker (some 0) = ⟨some 0, 0, false⟩ from rfl, h]

/-- C10 (witness): `count = 3`, `multiprocess = 4` gives quota 0 and a worker
that has not terminated after 7 iterations. -/
theorem run_load_zero_quota_never_terminates_witness :
    run_load_tx_left 3 4 = some 0 ∧
    (loadIter 7 (initWorker (some 0))).broke = false := by
  have h := run_load_zero_quota_never_terminates 3 4 (by decide) (by decide)
  exact ⟨h.1, h.2.2 7⟩

end BigchainCLI
